import Mathlib

/-!
Verification of the credential scheduler implemented in
`backend/app/services/credential_pool.py`.

Modelling conventions for the shallow embedding:
* Python strings are Lean `String`, timestamps are `Int` (seconds since
  the Unix epoch, `datetime.utcnow()` / `time.time()` passed in as a
  `now` argument); fractional values built from decimal strings are the
  exact decimals `Dec`.
* Python `None` is `Option.none`; Python truthiness of optional strings
  is `optStrTruthy` (both `None` and `""` are falsy).
* A raised exception is `Except.error`; normal return is `Except.ok`.
* A database table is a `List` of records; an ORM update committed for
  the row with a given id becomes `List.map` of a function that only
  changes records with a matching id.
* Encryption (`encrypt_credential`/`decrypt_credential`) is modelled as
  the identity on the stored plaintext.
* Outbound HTTP calls (the OAuth token refresh, the onboarding polls)
  are abstracted as input parameters carrying the response data.
-/

/-- `\s` of Python `re` restricted to ASCII whitespace. -/
def isWs (c : Char) : Bool :=
  c == ' ' || c == '\t' || c == '\n' || c == '\r' || c == '\x0b' || c == '\x0c'

/-- Match a literal pattern at the head of the input; return the rest on success. -/
def matchLit : List Char → List Char → Option (List Char)
  | [], rest => some rest
  | _ :: _, [] => none
  | p :: ps, c :: cs => if p == c then matchLit ps cs else none

/-- Does the pattern occur anywhere in the haystack (Python `pat in s`)? -/
def subOccurs (pat : List Char) : List Char → Bool
  | [] => pat.isEmpty
  | c :: cs => (matchLit pat (c :: cs)).isSome || subOccurs pat cs

/-- Python `pat in s` on strings. -/
def strIn (pat s : String) : Bool := subOccurs pat.data s.data

/-- Python truthiness of an optional string: `None` and `""` are falsy. -/
def optStrTruthy : Option String → Bool
  | none => false
  | some s => !(s == "")

/-- ASCII lowercase of a character (Python `str.lower()` restricted to ASCII). -/
def charLower (c : Char) : Char :=
  if c.toNat ≥ 65 && c.toNat ≤ 90 then Char.ofNat (c.toNat + 32) else c

/-- ASCII lowercase of a string (Python `str.lower()` restricted to ASCII). -/
def strLower (s : String) : String := ⟨s.data.map charLower⟩

/-- `CredentialPool.get_required_tier` (credential_pool.py lines 370-377). -/
def get_required_tier (model : String) : String :=
  let model_lower := strLower model
  if strIn "gemini-3-" model_lower || strIn "/gemini-3-" model_lower then "3"
  else "2.5"

/-- `CredentialPool.get_model_group` (credential_pool.py lines 379-395).
The argument is optional because the Python parameter may be `None`. -/
def get_model_group : Option String → String
  | none => "flash"
  | some model =>
    if model == "" then "flash"
    else
      let model_lower := strLower model
      if strIn "gemini-3-" model_lower || strIn "/gemini-3-" model_lower then "30"
      else if strIn "pro" model_lower then "pro"
      else "flash"

/-- `CredentialPool.get_antigravity_model_group` (lines 428-450). -/
def get_antigravity_model_group : Option String → String
  | none => "gemini"
  | some model =>
    if model == "" then "gemini"
    else
      let model_lower := strLower model
      if strIn "claude" model_lower then "claude"
      else if strIn "image" model_lower then "banana"
      else "gemini"

/-- C10: the model-to-feature-group mapping `get_model_group` is a total
function into exactly the set of groups "flash", "pro", "30"; a missing or
empty model name maps to "flash"; and any model name containing
"gemini-3-" (after lowercasing) maps to "30" even when it also contains
"pro", i.e. the tier-3 check takes priority over the pro check. -/
theorem C10_model_group_total :
    (∀ m : Option String,
      get_model_group m = "flash" ∨ get_model_group m = "pro" ∨ get_model_group m = "30")
    ∧ get_model_group none = "flash"
    ∧ get_model_group (some "") = "flash"
    ∧ get_model_group (some "gemini-2.5-pro") = "pro"
    ∧ get_model_group (some "gemini-2.0-flash") = "flash"
    ∧ get_model_group (some "gemini-3-pro-preview") = "30"
    ∧ (∀ s : String, strIn "gemini-3-" (strLower s) = true → get_model_group (some s) = "30") := by
  refine ⟨?_, rfl, by decide, by decide, by decide, by decide, ?_⟩
  · intro m
    cases m with
    | none => exact Or.inl rfl
    | some s =>
      simp only [get_model_group]
      split
      · exact Or.inl rfl
      · split
        · exact Or.inr (Or.inr rfl)
        · split
          · exact Or.inr (Or.inl rfl)
          · exact Or.inl rfl
  · intro s hs
    by_cases h : s = ""
    · subst h
      exact absurd hs (by decide)
    · have h1 : ¬((s == "") = true) := by simpa [beq_iff_eq] using h
      simp only [get_model_group]
      rw [if_neg h1, if_pos (by simp [hs])]

/-- Witness for C10 at a concrete mixed-case input that contains both
"gemini-3-" and "pro". -/
theorem C10_model_group_total_witness :
    get_model_group (some "Gemini-3-Pro-Preview") = "30" :=
  C10_model_group_total.2.2.2.2.2.2 "Gemini-3-Pro-Preview" (by decide)

/-! ## Data model -/

/-- Modelled from the spec: the persisted `Credential` row
(`app/models/user.py`, whose declaration is not part of the analysed
sources) restricted to the columns the scheduler reads or writes, as
listed in spec section 6 (id, owner id, mode, tier, is_public,
is_active, encrypted access/refresh token, tenant/project id, three
group-specific last-used timestamps, serialized cooldown map,
total/failed counters, last error text) together with the fields the
scheduler code itself references (`last_used_at`, `credential_type`,
`token_expiry`).  The serialized JSON cooldown map is modelled in
decoded form as an association list from group name to the absolute
"usable-again-at" timestamp. -/
structure Credential where
  id : Int
  user_id : Option Int
  api_type : String
  model_tier : String
  credential_type : String
  is_public : Bool
  is_active : Bool
  api_key : Option String
  refresh_token : Option String
  token_expiry : Option Int
  project_id : Option String
  last_used_at : Option Int
  last_used_flash : Option Int
  last_used_pro : Option Int
  last_used_30 : Option Int
  model_cooldowns : List (String × Int)
  total_requests : Int
  failed_requests : Int
  last_error : String
  deriving DecidableEq

/-- Modelled from the spec: the owner row (`app/models/user.py`), restricted
to the bonus-quota bookkeeping touched by the failure handler. -/
structure User where
  id : Int
  username : String
  bonus_quota : Option Int
  deriving DecidableEq

/-- The static configuration values (`app/config.py` `settings`) the
scheduler reads. -/
structure Settings where
  credential_pool_mode : String
  antigravity_pool_mode : String
  cd_flash : Int
  cd_pro : Int
  cd_30 : Int
  quota_flash : Int
  quota_25pro : Int
  quota_30pro : Int
  deriving DecidableEq

/-! ## Cooldown tracker -/

/-- `CredentialPool.get_cd_seconds` (lines 397-405). -/
def get_cd_seconds (s : Settings) (model_group : String) : Int :=
  if model_group == "30" then s.cd_30
  else if model_group == "pro" then s.cd_pro
  else s.cd_flash

/-- The group-specific last-used timestamp read by `is_credential_in_cd`
(lines 414-420). -/
def groupLastUsed (c : Credential) (model_group : String) : Option Int :=
  if model_group == "30" then c.last_used_30
  else if model_group == "pro" then c.last_used_pro
  else c.last_used_flash

/-- `CredentialPool.is_credential_in_cd` (lines 407-426). -/
def is_credential_in_cd (s : Settings) (now : Int) (c : Credential)
    (model_group : String) : Bool :=
  let cd_seconds := get_cd_seconds s model_group
  if cd_seconds ≤ 0 then false
  else
    match groupLastUsed c model_group with
    | none => false
    | some last_used => now < last_used + cd_seconds

/-- `CredentialPool.is_credential_in_model_group_cooldown` (lines 609-643),
over the decoded cooldown map; a missing entry (and, in the source, an
undecodable one) yields `false`. -/
def is_credential_in_model_group_cooldown (now : Int) (c : Credential)
    (model_group : String) : Bool :=
  match c.model_cooldowns.find? (fun p => p.1 == model_group) with
  | none => false
  | some p => now < p.2

/-! ## Selection engine -/

/-- `CredentialPool.check_user_has_tier3_creds` (lines 645-657) as a query
over the whole credential table. -/
def check_user_has_tier3_creds (pool : List Credential) (user_id : Option Int)
    (mode : String) : Bool :=
  pool.any fun c =>
    c.user_id == user_id && c.api_type == mode && c.model_tier == "3" && c.is_active

/-- The `required_tier` computed at line 737:
`get_required_tier(model) if model else "2.5"`. -/
def requiredTierOf : Option String → String
  | none => "2.5"
  | some m => if m == "" then "2.5" else get_required_tier m

/-- The `project_id != None, project_id != ""` filter at line 730. -/
def projectIdPresent (c : Credential) : Bool :=
  match c.project_id with
  | none => false
  | some p => !(p == "")

/-- The pool-mode/visibility portion of the selection query
(lines 746-803). -/
def visibilityOk (s : Settings) (pool : List Credential) (user_id : Option Int)
    (required_tier : String) (mode : String) (c : Credential) : Bool :=
  if mode == "antigravity" then
    if s.antigravity_pool_mode == "private" then c.user_id == user_id
    else c.is_public || c.user_id == user_id
  else if s.credential_pool_mode == "private" then c.user_id == user_id
  else if s.credential_pool_mode == "tier3_shared" then
    if required_tier == "3" then
      if check_user_has_tier3_creds pool user_id mode then
        c.is_public || c.user_id == user_id
      else c.user_id == user_id
    else c.is_public || c.user_id == user_id
  else c.is_public || c.user_id == user_id

/-- The full WHERE clause of `get_available_credential` (lines 722-803):
mode match, `is_active`, tenant id present, exclusion set, conditional tier
filter (only `geminicli` requests needing tier "3" filter on
`model_tier`), and the pool-mode visibility rules. -/
def selectionFilter (s : Settings) (pool : List Credential) (user_id : Option Int)
    (model : Option String) (exclude_ids : List Int) (mode : String)
    (c : Credential) : Bool :=
  let required_tier := requiredTierOf model
  c.is_active && c.api_type == mode
    && projectIdPresent c
    && !(exclude_ids.contains c.id)
    && (if mode == "geminicli" && required_tier == "3" then c.model_tier == "3" else true)
    && visibilityOk s pool user_id required_tier mode c

/-- The `ORDER BY last_used_at ASC NULLS FIRST` comparison of line 815,
as a Boolean total preorder on credentials. -/
def keyLEb (a b : Credential) : Bool :=
  match a.last_used_at, b.last_used_at with
  | none, _ => true
  | some _, none => false
  | some x, some y => x ≤ y

/-- Propositional form of `keyLEb`. -/
def keyLE (a b : Credential) : Prop := keyLEb a b = true

instance : DecidableRel keyLE := fun a b => inferInstanceAs (Decidable (keyLEb a b = true))

theorem keyLE_refl (a : Credential) : keyLE a a := by
  unfold keyLE keyLEb
  rcases a.last_used_at with _ | x
  · rfl
  · simp

theorem keyLE_total (a b : Credential) : keyLE a b ∨ keyLE b a := by
  unfold keyLE keyLEb
  rcases a.last_used_at with _ | x <;> rcases b.last_used_at with _ | y <;> simp
  omega

theorem keyLE_trans (a b c : Credential) : keyLE a b → keyLE b c → keyLE a c := by
  unfold keyLE keyLEb
  rcases a.last_used_at with _ | x <;> rcases b.last_used_at with _ | y <;>
    rcases c.last_used_at with _ | z <;> simp
  omega

instance : IsTotal Credential keyLE := ⟨keyLE_total⟩
instance : IsTrans Credential keyLE := ⟨fun a b c => keyLE_trans a b c⟩

/-- The ordered, filtered candidate list produced by the SELECT of
lines 722-817 (ties in `last_used_at` are returned in a stable order). -/
def selectionCandidates (s : Settings) (pool : List Credential) (user_id : Option Int)
    (model : Option String) (exclude_ids : List Int) (mode : String) :
    List Credential :=
  List.insertionSort keyLE (pool.filter (selectionFilter s pool user_id model exclude_ids mode))

/-- The `model_group` computed at line 806:
`get_model_group(model) if model else "flash"`. -/
def selectionModelGroup (model : Option String) : String :=
  if optStrTruthy model then get_model_group model else "flash"

/-- The `agy_model_group` computed at lines 810-812. -/
def selectionAgyGroup (mode : String) (model : Option String) : Option String :=
  if mode == "antigravity" && optStrTruthy model then
    some (get_antigravity_model_group model)
  else none

/-- The inner `is_credential_available` predicate (lines 824-831). -/
def credAvailable (s : Settings) (now : Int) (model_group : String)
    (agy_model_group : Option String) (c : Credential) : Bool :=
  if is_credential_in_cd s now c model_group then false
  else
    match agy_model_group with
    | some g => !(is_credential_in_model_group_cooldown now c g)
    | none => true

/-- The committed usage update applied to the chosen credential
(lines 858-871): set `last_used_at`, bump `total_requests`, and stamp the
group-specific last-used timestamp. -/
def selectionUpdate (now : Int) (model_group : String) (c : Credential) : Credential :=
  let c1 := { c with last_used_at := some now, total_requests := c.total_requests + 1 }
  if model_group == "30" then { c1 with last_used_30 := some now }
  else if model_group == "pro" then { c1 with last_used_pro := some now }
  else { c1 with last_used_flash := some now }

/-- The choice made at lines 819-856: `None` on an empty candidate list,
otherwise the first available candidate, falling back to the first
candidate overall when every one is cooling down. -/
def chooseFrom (s : Settings) (now : Int) (model : Option String) (mode : String)
    (cands : List Credential) : Option Credential :=
  match cands with
  | [] => none
  | c0 :: rest =>
    let available := (c0 :: rest).filter
      (credAvailable s now (selectionModelGroup model) (selectionAgyGroup mode model))
    some (available.headD c0)

/-- `CredentialPool.get_available_credential` (lines 693-873).  Returns the
selected (already usage-stamped) credential together with the credential
table after the committed update.  The unused Python parameter
`user_has_public_creds` is omitted; `mode` is assumed validated
(`validate_mode` would raise on anything else). -/
def get_available_credential (s : Settings) (pool : List Credential) (now : Int)
    (user_id : Option Int) (model : Option String) (exclude_ids : List Int)
    (mode : String) : Option Credential × List Credential :=
  match chooseFrom s now model mode (selectionCandidates s pool user_id model exclude_ids mode) with
  | none => (none, pool)
  | some chosen =>
    (some (selectionUpdate now (selectionModelGroup model) chosen),
     pool.map fun c =>
       if c.id == chosen.id then selectionUpdate now (selectionModelGroup model) c else c)

/-! ## Selection lemmas -/

theorem selectionUpdate_model_tier (now : Int) (g : String) (c : Credential) :
    (selectionUpdate now g c).model_tier = c.model_tier := by
  unfold selectionUpdate
  split
  · rfl
  · split <;> rfl

theorem selectionUpdate_is_active (now : Int) (g : String) (c : Credential) :
    (selectionUpdate now g c).is_active = c.is_active := by
  unfold selectionUpdate
  split
  · rfl
  · split <;> rfl

theorem selectionUpdate_id (now : Int) (g : String) (c : Credential) :
    (selectionUpdate now g c).id = c.id := by
  unfold selectionUpdate
  split
  · rfl
  · split <;> rfl

theorem headD_filter_mem {α : Type} (p : α → Bool) (c0 : α) (l : List α) :
    (List.filter p (c0 :: l)).headD c0 ∈ c0 :: l := by
  rcases hf : List.filter p (c0 :: l) with _ | ⟨d, ds⟩
  · simp
  · have hd : d ∈ List.filter p (c0 :: l) := by
      rw [hf]; exact List.mem_cons_self d ds
    simp only [List.headD_cons]
    exact (List.mem_filter.mp hd).1

theorem chooseFrom_mem (s : Settings) (now : Int) (model : Option String)
    (mode : String) (cands : List Credential) (c : Credential)
    (h : chooseFrom s now model mode cands = some c) : c ∈ cands := by
  cases cands with
  | nil => simp [chooseFrom] at h
  | cons c0 rest =>
    simp only [chooseFrom, Option.some.injEq] at h
    rw [← h]
    exact headD_filter_mem _ c0 rest

theorem chooseFrom_eq_none_iff (s : Settings) (now : Int) (model : Option String)
    (mode : String) (cands : List Credential) :
    chooseFrom s now model mode cands = none ↔ cands = [] := by
  cases cands <;> simp [chooseFrom]

theorem gac_fst_of_choose (s : Settings) (pool : List Credential) (now : Int)
    (uid : Option Int) (model : Option String) (excl : List Int) (mode : String)
    (chosen : Credential)
    (h : chooseFrom s now model mode (selectionCandidates s pool uid model excl mode) = some chosen) :
    (get_available_credential s pool now uid model excl mode).1 =
      some (selectionUpdate now (selectionModelGroup model) chosen) := by
  simp [get_available_credential, h]

theorem selectionCandidates_sorted (s : Settings) (pool : List Credential)
    (uid : Option Int) (model : Option String) (excl : List Int) (mode : String) :
    List.Sorted keyLE (selectionCandidates s pool uid model excl mode) :=
  List.sorted_insertionSort keyLE _

theorem selectionCandidates_nil_iff (s : Settings) (pool : List Credential)
    (uid : Option Int) (model : Option String) (excl : List Int) (mode : String) :
    selectionCandidates s pool uid model excl mode = [] ↔
      pool.filter (selectionFilter s pool uid model excl mode) = [] := by
  unfold selectionCandidates
  constructor
  · intro h
    have hlen := (List.perm_insertionSort keyLE
      (pool.filter (selectionFilter s pool uid model excl mode))).length_eq
    rw [h] at hlen
    exact List.length_eq_zero.mp hlen.symm
  · intro h
    rw [h]
    rfl

/-! ## C1: selection ordering -/

/-- A baseline active, provisioned geminicli credential for concrete tests. -/
def credBase : Credential :=
  { id := 1, user_id := some 1, api_type := "geminicli", model_tier := "2.5"
  , credential_type := "oauth", is_public := true, is_active := true
  , api_key := some "k", refresh_token := some "r", token_expiry := none
  , project_id := some "p", last_used_at := some 100
  , last_used_flash := some 1000, last_used_pro := none, last_used_30 := none
  , model_cooldowns := [], total_requests := 0, failed_requests := 0
  , last_error := "" }

/-- Settings with a fixed 60-second cooldown for every group, full-shared pools. -/
def sC1 : Settings :=
  { credential_pool_mode := "full_shared", antigravity_pool_mode := "full_shared"
  , cd_flash := 60, cd_pro := 60, cd_30 := 60
  , quota_flash := 0, quota_25pro := 0, quota_30pro := 0 }

/-- Earlier global `last_used_at` (100) but later flash timestamp (1000). -/
def credA : Credential := credBase

/-- Later global `last_used_at` (200) but earlier flash timestamp (50). -/
def credB : Credential := { credBase with id := 2, last_used_at := some 200, last_used_flash := some 50 }

/-- C1 counterexample: both credentials pass the filter and neither is in
cooldown for the flash group at time 10000, credential B has the strictly
earlier flash-specific last-used timestamp (50 vs 1000), yet selection
returns credential A (id 1) — the one with the earlier GLOBAL
`last_used_at` — so the claim that ordering follows the group-specific
timestamp is false on the code. -/
theorem C1_counterexample :
    (get_available_credential sC1 [credA, credB] 10000 (some 1)
        (some "gemini-2.0-flash") [] "geminicli").1.map Credential.id = some 1
    ∧ credB ∈ selectionCandidates sC1 [credA, credB] (some 1)
        (some "gemini-2.0-flash") [] "geminicli"
    ∧ credAvailable sC1 10000 "flash" none credB = true
    ∧ credAvailable sC1 10000 "flash" none credA = true
    ∧ credB.last_used_flash = some 50 ∧ credA.last_used_flash = some 1000 := by
  decide

/-- C1 (amended): whenever some filtered candidate is not cooling down for
the request's group, selection returns a not-cooling-down candidate whose
GLOBAL `last_used_at` timestamp is earliest (nulls first) among all
not-cooling-down candidates; the group-specific last-used timestamps play
no role in the ordering. -/
theorem C1_selection_prefers_earliest_global (s : Settings) (pool : List Credential)
    (now : Int) (uid : Option Int) (model : Option String) (excl : List Int)
    (mode : String) (cavail : Credential)
    (hmem : cavail ∈ selectionCandidates s pool uid model excl mode)
    (havail : credAvailable s now (selectionModelGroup model)
        (selectionAgyGroup mode model) cavail = true) :
    ∃ c ∈ selectionCandidates s pool uid model excl mode,
      credAvailable s now (selectionModelGroup model) (selectionAgyGroup mode model) c = true
      ∧ (get_available_credential s pool now uid model excl mode).1 =
          some (selectionUpdate now (selectionModelGroup model) c)
      ∧ ∀ c' ∈ selectionCandidates s pool uid model excl mode,
          credAvailable s now (selectionModelGroup model) (selectionAgyGroup mode model) c' = true →
          keyLE c c' := by
  rcases h : selectionCandidates s pool uid model excl mode with _ | ⟨c0, rest⟩
  · rw [h] at hmem
    cases hmem
  · have hmem' : cavail ∈ (c0 :: rest).filter
        (credAvailable s now (selectionModelGroup model) (selectionAgyGroup mode model)) :=
      List.mem_filter.mpr ⟨h ▸ hmem, havail⟩
    rcases hfa : (c0 :: rest).filter
        (credAvailable s now (selectionModelGroup model) (selectionAgyGroup mode model))
      with _ | ⟨d, ds⟩
    · rw [hfa] at hmem'
      cases hmem'
    · have hd : d ∈ (c0 :: rest).filter
          (credAvailable s now (selectionModelGroup model) (selectionAgyGroup mode model)) := by
        rw [hfa]; exact List.mem_cons_self d ds
      have hdc := List.mem_filter.mp hd
      have hchoose : chooseFrom s now model mode
          (selectionCandidates s pool uid model excl mode) = some d := by
        rw [h]
        simp [chooseFrom, hfa]
      refine ⟨d, hdc.1, hdc.2,
        gac_fst_of_choose s pool now uid model excl mode d hchoose, ?_⟩
      intro c' hc' hpc'
      have hsorted : List.Sorted keyLE (selectionCandidates s pool uid model excl mode) :=
        selectionCandidates_sorted s pool uid model excl mode
      rw [h] at hsorted
      have hsf : List.Sorted keyLE ((c0 :: rest).filter
          (credAvailable s now (selectionModelGroup model) (selectionAgyGroup mode model))) :=
        List.Pairwise.filter _ hsorted
      rw [hfa] at hsf
      have hc'f : c' ∈ d :: ds := by
        rw [← hfa]
        exact List.mem_filter.mpr ⟨hc', hpc'⟩
      rcases List.mem_cons.mp hc'f with rfl | htl
      · exact keyLE_refl _
      · exact List.rel_of_sorted_cons hsf _ htl

/-- Witness for the amended C1 at the concrete two-credential pool. -/
theorem C1_selection_prefers_earliest_global_witness :
    ∃ c ∈ selectionCandidates sC1 [credA, credB] (some 1)
        (some "gemini-2.0-flash") [] "geminicli",
      credAvailable sC1 10000 (selectionModelGroup (some "gemini-2.0-flash"))
          (selectionAgyGroup "geminicli" (some "gemini-2.0-flash")) c = true
      ∧ (get_available_credential sC1 [credA, credB] 10000 (some 1)
            (some "gemini-2.0-flash") [] "geminicli").1 =
          some (selectionUpdate 10000 (selectionModelGroup (some "gemini-2.0-flash")) c)
      ∧ ∀ c' ∈ selectionCandidates sC1 [credA, credB] (some 1)
            (some "gemini-2.0-flash") [] "geminicli",
          credAvailable sC1 10000 (selectionModelGroup (some "gemini-2.0-flash"))
              (selectionAgyGroup "geminicli" (some "gemini-2.0-flash")) c' = true →
          keyLE c c' :=
  C1_selection_prefers_earliest_global sC1 [credA, credB] 10000 (some 1)
    (some "gemini-2.0-flash") [] "geminicli" credA (by decide) (by decide)

/-! ## C2: tier monotonicity -/

/-- Settings with cooldowns disabled, full-shared pools. -/
def sC2 : Settings :=
  { credential_pool_mode := "full_shared", antigravity_pool_mode := "full_shared"
  , cd_flash := 0, cd_pro := 0, cd_30 := 0
  , quota_flash := 0, quota_25pro := 0, quota_30pro := 0 }

/-- A lower-tier ("2.5") antigravity credential. -/
def credC : Credential :=
  { credBase with
    id := 7, api_type := "antigravity", last_used_at := none,
    last_used_flash := none }

/-- C2 counterexample: in antigravity mode the tier filter is skipped
(lines 739-744 apply it only for geminicli), so a request for a
"gemini-3-" model — whose required tier is "3" — is served by a
credential whose `model_tier` is "2.5". -/
theorem C2_counterexample :
    get_required_tier "gemini-3-pro-preview" = "3"
    ∧ (get_available_credential sC2 [credC] 0 (some 1)
        (some "gemini-3-pro-preview") [] "antigravity").1.map Credential.model_tier
      = some "2.5" := by
  decide

/-- C2 (amended): in geminicli mode, whenever the requested model requires
tier "3", any credential returned by selection has `model_tier = "3"`;
lower-tier credentials are never returned for higher-tier geminicli
requests.  (Antigravity mode deliberately skips this filter.) -/
theorem C2_tier3_only_geminicli (s : Settings) (pool : List Credential) (now : Int)
    (uid : Option Int) (m : String) (excl : List Int)
    (h3 : get_required_tier m = "3") (c : Credential)
    (hres : (get_available_credential s pool now uid (some m) excl "geminicli").1 = some c) :
    c.model_tier = "3" := by
  rcases hch : chooseFrom s now (some m) "geminicli"
      (selectionCandidates s pool uid (some m) excl "geminicli") with _ | chosen
  · simp [get_available_credential, hch] at hres
  · rw [gac_fst_of_choose s pool now uid (some m) excl "geminicli" chosen hch] at hres
    have hc : c = selectionUpdate now (selectionModelGroup (some m)) chosen :=
      (Option.some.injEq _ _ ▸ hres).symm
    have hmemc : chosen ∈ selectionCandidates s pool uid (some m) excl "geminicli" :=
      chooseFrom_mem s now (some m) "geminicli" _ chosen hch
    rw [selectionCandidates, List.mem_insertionSort] at hmemc
    have hfil := (List.mem_filter.mp hmemc).2
    have hmne : ¬((m == "") = true) := by
      intro hm
      have hm' : m = "" := by simpa [beq_iff_eq] using hm
      rw [hm'] at h3
      exact absurd h3 (by decide)
    have hrt : requiredTierOf (some m) = "3" := by
      simp only [requiredTierOf]
      rw [if_neg hmne]
      exact h3
    simp only [selectionFilter, Bool.and_eq_true] at hfil
    have htier := hfil.1.2
    rw [hrt] at htier
    rw [if_pos (by decide)] at htier
    rw [hc, selectionUpdate_model_tier]
    simpa [beq_iff_eq] using htier

/-- A tier-"3" geminicli credential. -/
def credD : Credential :=
  { credBase with
    id := 3, model_tier := "3", last_used_at := none,
    last_used_30 := none }

/-- Witness for the amended C2 at a concrete one-credential pool. -/
theorem C2_tier3_only_geminicli_witness :
    (selectionUpdate 500 (selectionModelGroup (some "gemini-3-pro")) credD).model_tier = "3" :=
  C2_tier3_only_geminicli sC2 [credD] 500 (some 1) "gemini-3-pro" [] (by decide)
    (selectionUpdate 500 (selectionModelGroup (some "gemini-3-pro")) credD) (by decide)

/-! ## C3: degraded-service policy -/

/-- C3: selection returns `None` exactly when the filtered set is empty;
and when the candidate list is non-empty but every candidate is cooling
down, the first candidate in last-used order (the head of the sorted
candidate list, which is minimal for the global last-used order) is still
returned. -/
theorem C3_degraded_service (s : Settings) (pool : List Credential) (now : Int)
    (uid : Option Int) (model : Option String) (excl : List Int) (mode : String) :
    ((get_available_credential s pool now uid model excl mode).1 = none ↔
      pool.filter (selectionFilter s pool uid model excl mode) = [])
    ∧ (∀ c0 rest,
        selectionCandidates s pool uid model excl mode = c0 :: rest →
        (∀ c ∈ c0 :: rest,
          credAvailable s now (selectionModelGroup model) (selectionAgyGroup mode model) c = false) →
        (get_available_credential s pool now uid model excl mode).1 =
          some (selectionUpdate now (selectionModelGroup model) c0)
        ∧ ∀ c' ∈ c0 :: rest, keyLE c0 c') := by
  constructor
  · constructor
    · intro h
      rcases hch : chooseFrom s now model mode
          (selectionCandidates s pool uid model excl mode) with _ | chosen
      · exact (selectionCandidates_nil_iff s pool uid model excl mode).mp
          ((chooseFrom_eq_none_iff s now model mode _).mp hch)
      · rw [gac_fst_of_choose s pool now uid model excl mode chosen hch] at h
        cases h
    · intro h
      have hnil : selectionCandidates s pool uid model excl mode = [] :=
        (selectionCandidates_nil_iff s pool uid model excl mode).mpr h
      have hch : chooseFrom s now model mode
          (selectionCandidates s pool uid model excl mode) = none :=
        (chooseFrom_eq_none_iff s now model mode _).mpr hnil
      simp [get_available_credential, hch]
  · intro c0 rest h hall
    have hfe : (c0 :: rest).filter
        (credAvailable s now (selectionModelGroup model) (selectionAgyGroup mode model)) = [] :=
      List.filter_eq_nil_iff.mpr (fun c hc => by rw [hall c hc]; simp)
    have hch : chooseFrom s now model mode
        (selectionCandidates s pool uid model excl mode) = some c0 := by
      rw [h]
      simp [chooseFrom, hfe]
    refine ⟨gac_fst_of_choose s pool now uid model excl mode c0 hch, ?_⟩
    intro c' hc'
    have hsorted : List.Sorted keyLE (selectionCandidates s pool uid model excl mode) :=
      selectionCandidates_sorted s pool uid model excl mode
    rw [h] at hsorted
    rcases List.mem_cons.mp hc' with rfl | htl
    · exact keyLE_refl _
    · exact List.rel_of_sorted_cons hsorted _ htl

/-- Settings and credential for the C3 witness: one candidate, in cooldown. -/
def sC3 : Settings :=
  { credential_pool_mode := "full_shared", antigravity_pool_mode := "full_shared"
  , cd_flash := 60, cd_pro := 60, cd_30 := 60
  , quota_flash := 0, quota_25pro := 0, quota_30pro := 0 }

/-- A credential whose flash group is cooling down at time 100
(last used at 90, fixed cooldown 60 seconds). -/
def credE : Credential :=
  { credBase with id := 4, last_used_at := some 10, last_used_flash := some 90 }

/-- Witness for C3 at a concrete fully-saturated one-credential pool. -/
theorem C3_degraded_service_witness :
    (get_available_credential sC3 [credE] 100 (some 1)
        (some "gemini-2.0-flash") [] "geminicli").1 =
      some (selectionUpdate 100 (selectionModelGroup (some "gemini-2.0-flash")) credE)
    ∧ ∀ c' ∈ [credE], keyLE credE c' :=
  (C3_degraded_service sC3 [credE] 100 (some 1)
      (some "gemini-2.0-flash") [] "geminicli").2 credE [] (by decide) (by decide)

/-! ## Token manager -/

/-- `decrypt_credential(credential.api_key) if credential.api_key else None`:
the cached access token; `None` when the stored field is absent or empty
(encryption is modelled as the identity, see the header). -/
def cachedToken (c : Credential) : Option String :=
  match c.api_key with
  | none => none
  | some k => if k == "" then none else some k

/-- `CredentialPool._is_token_expired` (lines 948-978).  `token_expiry` is
modelled already parsed to epoch seconds; the source treats a missing
access token as expired, an unparsable or missing expiry as expired, and
applies a 5-minute (300-second) safety margin. -/
def is_token_expired (c : Credential) (now : Int) : Bool :=
  if !(optStrTruthy c.api_key) then true
  else
    match c.token_expiry with
    | some expiry => expiry - 300 ≤ now
    | none => true

/-- `CredentialPool.get_access_token` (lines 980-1012).  The outcome of the
HTTP refresh-token grant (`refresh_access_token`, lines 889-946) is
abstracted as `refreshResult`: `some t` models a successful refresh
returning token `t`, `none` a failed refresh.  Returns the token handed to
the caller together with the credential as persisted (a successful refresh
stores the new access token). -/
def get_access_token (c : Credential) (now : Int) (refreshResult : Option String) :
    Option String × Credential :=
  if c.credential_type == "oauth" && optStrTruthy c.refresh_token then
    if is_token_expired c now then
      match refreshResult with
      | some newToken => (some newToken, { c with api_key := some newToken })
      | none =>
        match cachedToken c with
        | some existing => (some existing, c)
        | none => (none, c)
    else (cachedToken c, c)
  else (cachedToken c, c)

/-- C6: for an OAuth-refreshable credential whose token is stale, a failed
refresh falls back to the previously cached token when one exists and
yields `None` only when no cached token exists; moreover absence of a
tracked expiry counts as always stale, and with a tracked expiry staleness
is exactly "expiry minus the 5-minute margin has passed". -/
theorem C6_refresh_fallback (c : Credential) (now : Int)
    (hoauth : c.credential_type = "oauth")
    (hrt : optStrTruthy c.refresh_token = true)
    (hstale : is_token_expired c now = true) :
    ((∀ t, cachedToken c = some t → (get_access_token c now none).1 = some t)
      ∧ (cachedToken c = none → (get_access_token c now none).1 = none))
    ∧ (c.token_expiry = none → is_token_expired c now = true)
    ∧ (∀ e, c.token_expiry = some e → optStrTruthy c.api_key = true →
        is_token_expired c now = decide (e - 300 ≤ now)) := by
  have hcond : (c.credential_type == "oauth" && optStrTruthy c.refresh_token) = true := by
    rw [hoauth, hrt]
    rfl
  have hred : get_access_token c now none =
      (match cachedToken c with
        | some existing => (some existing, c)
        | none => (none, c)) := by
    unfold get_access_token
    rw [hcond, if_pos rfl, hstale, if_pos rfl]
  refine ⟨⟨?_, ?_⟩, ?_, ?_⟩
  · intro t ht
    rw [hred, ht]
  · intro ht
    rw [hred, ht]
  · intro hexp
    unfold is_token_expired
    rw [hexp]
    split
    · rfl
    · rfl
  · intro e hexp hkey
    unfold is_token_expired
    rw [hexp, hkey]
    simp

/-- A stale credential (no tracked expiry) holding a cached token. -/
def credF : Credential := { credBase with token_expiry := none, api_key := some "cached" }

/-- Witness for C6: the failed refresh returns the cached token. -/
theorem C6_refresh_fallback_witness :
    (get_access_token credF 0 none).1 = some "cached" :=
  (C6_refresh_fallback credF 0 rfl (by decide) (by decide)).1.1 "cached" (by decide)

/-! ## Failure handler -/

/-- The authentication-failure classification at line 1053:
`"401" in error or "403" in error or "PERMISSION_DENIED" in error`. -/
def authFailureText (error : String) : Bool :=
  strIn "401" error || strIn "403" error || strIn "PERMISSION_DENIED" error

/-- The per-row effect of `mark_credential_error` (lines 1014-1027):
increment `failed_requests` and store the truncated error text (the UTF-16
surrogate scrubbing of the source is the identity on Lean strings). -/
def markErrorUpdate (error : String) (c : Credential) : Credential :=
  { c with failed_requests := c.failed_requests + 1, last_error := error.take 1000 }

/-- `CredentialPool.mark_credential_error` (lines 1014-1027) as a table
update. -/
def mark_credential_error (pool : List Credential) (credential_id : Int)
    (error : String) : List Credential :=
  pool.map fun c => if c.id == credential_id then markErrorUpdate error c else c

/-- The tier-dependent bonus-quota deduction of lines 1067-1071. -/
def deductFor (s : Settings) (tier : String) : Int :=
  if tier == "3" then s.quota_flash + s.quota_25pro + s.quota_30pro
  else s.quota_flash + s.quota_25pro

/-- The owner bonus-quota compensation applied at line 1073:
`user.bonus_quota = max(0, (user.bonus_quota or 0) - deduct)`. -/
def deductUser (s : Settings) (tier : String) (u : User) : User :=
  { u with bonus_quota := some (max 0 (u.bonus_quota.getD 0 - deductFor s tier)) }

/-- `CredentialPool.handle_credential_failure` (lines 1039-1077): record
the error, then on an authentication failure disable the credential if it
is still active and compensate the owner's bonus quota if the credential
was public. -/
def handle_credential_failure (s : Settings) (pool : List Credential)
    (users : List User) (credential_id : Int) (error : String) :
    List Credential × List User :=
  let pool1 := mark_credential_error pool credential_id error
  if authFailureText error then
    match pool1.find? (fun c => c.id == credential_id) with
    | none => (pool1, users)
    | some cred =>
      if cred.is_active then
        let pool2 := pool1.map fun c =>
          if c.id == credential_id then { c with is_active := false } else c
        let users2 :=
          if cred.is_public then
            match cred.user_id with
            | some uid =>
              users.map fun u =>
                if u.id == uid then deductUser s cred.model_tier u else u
            | none => users
          else users
        (pool2, users2)
      else (pool1, users)
  else (pool1, users)

/-- C7: recording an authentication failure against an already-disabled
credential leaves the pool exactly as `mark_credential_error` leaves it
(error text recorded, failure counter incremented, `is_active` untouched)
and performs no bonus-quota deduction on any user. -/
theorem C7_failure_on_disabled (s : Settings) (pool : List Credential)
    (users : List User) (cid : Int) (error : String)
    (hauth : authFailureText error = true)
    (hinact : ∀ c ∈ pool, c.id = cid → c.is_active = false) :
    handle_credential_failure s pool users cid error =
      (mark_credential_error pool cid error, users)
    ∧ ∀ c : Credential,
        (markErrorUpdate error c).is_active = c.is_active
        ∧ (markErrorUpdate error c).failed_requests = c.failed_requests + 1
        ∧ (markErrorUpdate error c).last_error = error.take 1000 := by
  constructor
  · rcases hf : (mark_credential_error pool cid error).find? (fun c => c.id == cid)
      with _ | cred
    · simp only [handle_credential_failure]
      rw [if_pos hauth, hf]
    · have hpred := List.find?_some hf
      have hmem := List.mem_of_find?_eq_some hf
      have hcid : cred.id = cid := by simpa [beq_iff_eq] using hpred
      have hcia : cred.is_active = false := by
        rcases List.mem_map.mp hmem with ⟨c0, hc0, hc0e⟩
        by_cases hc0id : (c0.id == cid) = true
        · rw [if_pos hc0id] at hc0e
          rw [← hc0e]
          show c0.is_active = false
          exact hinact c0 hc0 (by simpa [beq_iff_eq] using hc0id)
        · rw [if_neg hc0id] at hc0e
          rw [← hc0e]
          exact hinact c0 hc0 (by rw [← hc0e] at hcid; simpa [beq_iff_eq] using hcid)
      simp only [handle_credential_failure]
      rw [if_pos hauth, hf]
      show (if cred.is_active = true then _ else _) = _
      rw [hcia, if_neg Bool.false_ne_true]
  · intro c
    refine ⟨?_, ?_, ?_⟩ <;> simp [markErrorUpdate]

/-- An already-disabled credential and a user for the C7 witness. -/
def credG : Credential := { credBase with id := 9, is_active := false }

/-- A user holding bonus quota, for the C7 witness. -/
def userH : User := { id := 1, username := "u", bonus_quota := some 100 }

/-- Witness for C7: the failure handler only records the error. -/
theorem C7_failure_on_disabled_witness :
    handle_credential_failure sC2 [credG] [userH] 9 "HTTP 401 unauthorized" =
      (mark_credential_error [credG] 9 "HTTP 401 unauthorized", [userH]) :=
  (C7_failure_on_disabled sC2 [credG] [userH] 9 "HTTP 401 unauthorized"
    (by decide) (by decide)).1

/-! ## Exact decimals (Python float values from decimal strings) -/

/-- An exact decimal number with value `num / 10 ^ scale`, modelling the
Python float values the 429 parser builds from decimal strings (those
values are exactly representable; binary-float rounding is not
modelled). -/
structure Dec where
  num : Int
  scale : Nat
  deriving DecidableEq

/-- Rescale to a coarser denominator `10 ^ k` (requires `scale ≤ k`). -/
def Dec.toScale (d : Dec) (k : Nat) : Int := d.num * (10 : Int) ^ (k - d.scale)

/-- Exact addition. -/
def Dec.add (a b : Dec) : Dec :=
  let k := max a.scale b.scale
  ⟨a.toScale k + b.toScale k, k⟩

/-- Exact subtraction. -/
def Dec.sub (a b : Dec) : Dec :=
  let k := max a.scale b.scale
  ⟨a.toScale k - b.toScale k, k⟩

/-- Multiplication by a natural constant. -/
def Dec.mulNat (a : Dec) (n : Nat) : Dec := ⟨a.num * (n : Int), a.scale⟩

/-- Python `int()` on an exact decimal: truncation toward zero. -/
def Dec.pyInt (a : Dec) : Int := Int.tdiv a.num ((10 : Int) ^ a.scale)

/-- Python truthiness of a float value: zero is falsy. -/
def Dec.truthy (a : Dec) : Bool := !(a.num == 0)

/-- Multiplication by a power of ten (for a JSON exponent). -/
def Dec.applyExp (d : Dec) (e : Int) : Dec :=
  if 0 ≤ e then
    let en := e.toNat
    if en ≤ d.scale then ⟨d.num, d.scale - en⟩
    else ⟨d.num * (10 : Int) ^ (en - d.scale), 0⟩
  else ⟨d.num, d.scale + (-e).toNat⟩

/-! ## Digit-string helpers -/

/-- Value of a (decimal) digit list. -/
def digitsToNat (cs : List Char) : Nat :=
  cs.foldl (fun a c => a * 10 + (c.toNat - 48)) 0

/-- Python `float()` restricted to the `[\d.]+` captures of the
quotaResetDelay regex: legal exactly when the capture has at least one
digit and at most one dot; any other shape (such as "1..2") raises
`ValueError`. -/
def pyFloatDigitsDot (cs : List Char) : Option Dec :=
  let dots := (cs.filter (fun c => c == '.')).length
  if cs.any Char.isDigit && dots ≤ 1 then
    let ip := cs.takeWhile (fun c => !(c == '.'))
    let fp := (cs.dropWhile (fun c => !(c == '.'))).drop 1
    some ⟨(digitsToNat ip : Int) * (10 : Int) ^ fp.length + (digitsToNat fp : Int), fp.length⟩
  else none

/-- Python `int(str)` for the decimal forms a Retry-After header can
carry: optional surrounding whitespace, optional sign, digits (the
underscore grouping Python also accepts is not modelled); anything else
raises, which the caller swallows. -/
def pyIntStr (s : String) : Option Int :=
  let cs := ((s.data.dropWhile isWs).reverse.dropWhile isWs).reverse
  match cs with
  | '+' :: ds =>
    if !ds.isEmpty && ds.all Char.isDigit then some (digitsToNat ds : Int) else none
  | '-' :: ds =>
    if !ds.isEmpty && ds.all Char.isDigit then some (-(digitsToNat ds : Int)) else none
  | ds =>
    if !ds.isEmpty && ds.all Char.isDigit then some (digitsToNat ds : Int) else none

/-! ## JSON (`json.loads`) -/

/-- JSON values, for the fragments of `json.loads` output that the
scheduler inspects. -/
inductive Json where
  | null : Json
  | bool : Bool → Json
  | num : Dec → Json
  | str : String → Json
  | arr : List Json → Json
  | obj : List (String × Json) → Json

/-- Python `dict.get`: the last binding of a key wins (as in `json.loads`
output for duplicate keys). -/
def jget (fields : List (String × Json)) (k : String) : Option Json :=
  match fields.reverse.find? (fun p => p.1 == k) with
  | none => none
  | some p => some p.2

/-- Python truthiness of a decoded JSON value. -/
def jTruthy : Json → Bool
  | Json.null => false
  | Json.bool b => b
  | Json.num d => d.truthy
  | Json.str s => !(s == "")
  | Json.arr xs => !xs.isEmpty
  | Json.obj fs => !fs.isEmpty

/-- JSON whitespace. -/
def isJsonWs (c : Char) : Bool :=
  c == ' ' || c == '\t' || c == '\n' || c == '\r'

/-- Skip JSON whitespace. -/
def skipJsonWs (cs : List Char) : List Char := cs.dropWhile isJsonWs

/-- Hexadecimal digit value. -/
def hexVal (c : Char) : Option Nat :=
  if c.isDigit then some (c.toNat - 48)
  else if 'a' ≤ c && c ≤ 'f' then some (c.toNat - 87)
  else if 'A' ≤ c && c ≤ 'F' then some (c.toNat - 55)
  else none

/-- Parse the body of a JSON string (after the opening quote), with the
standard escapes; `\uXXXX` escapes are decoded code-unit-wise (surrogate
pairs are not recombined). -/
def parseJsonString : Nat → List Char → List Char → Option (String × List Char)
  | 0, _, _ => none
  | _ + 1, _, [] => none
  | _ + 1, acc, '"' :: cs => some (String.mk acc.reverse, cs)
  | fuel + 1, acc, '\\' :: cs =>
    match cs with
    | [] => none
    | e :: cs' =>
      if e == '"' then parseJsonString fuel ('"' :: acc) cs'
      else if e == '\\' then parseJsonString fuel ('\\' :: acc) cs'
      else if e == '/' then parseJsonString fuel ('/' :: acc) cs'
      else if e == 'b' then parseJsonString fuel ('\x08' :: acc) cs'
      else if e == 'f' then parseJsonString fuel ('\x0c' :: acc) cs'
      else if e == 'n' then parseJsonString fuel ('\n' :: acc) cs'
      else if e == 'r' then parseJsonString fuel ('\r' :: acc) cs'
      else if e == 't' then parseJsonString fuel ('\t' :: acc) cs'
      else if e == 'u' then
        match cs' with
        | h1 :: h2 :: h3 :: h4 :: cs'' =>
          match hexVal h1, hexVal h2, hexVal h3, hexVal h4 with
          | some a, some b, some c, some d =>
            let n := ((a * 16 + b) * 16 + c) * 16 + d
            if n.isValidChar then parseJsonString fuel (Char.ofNat n :: acc) cs''
            else parseJsonString fuel ('�' :: acc) cs''
          | _, _, _, _ => none
        | _ => none
      else none
  | fuel + 1, acc, c :: cs =>
    if c.toNat < 32 then none else parseJsonString fuel (c :: acc) cs

/-- Parse a JSON number (RFC 8259 grammar; the value is kept exact). -/
def parseJsonNumber (cs : List Char) : Option (Json × List Char) :=
  let (neg, cs1) :=
    match cs with
    | '-' :: r => (true, r)
    | _ => (false, cs)
  let ip := cs1.takeWhile Char.isDigit
  let r1 := cs1.dropWhile Char.isDigit
  if ip.isEmpty then none
  else if ip.length > 1 && ip.headD '0' == '0' then none
  else
    let (fp, r2) :=
      match r1 with
      | '.' :: r => (r.takeWhile Char.isDigit, r.dropWhile Char.isDigit)
      | _ => ([], r1)
    if r1 ≠ [] && r1.headD ' ' == '.' && fp.isEmpty then none
    else
      let mantissa : Int :=
        (if neg then -1 else 1) *
          ((digitsToNat ip : Int) * (10 : Int) ^ fp.length + (digitsToNat fp : Int))
      let base : Dec := ⟨mantissa, fp.length⟩
      match r2 with
      | 'e' :: r3 | 'E' :: r3 =>
        let (eneg, r4) :=
          match r3 with
          | '-' :: r => (true, r)
          | '+' :: r => (false, r)
          | _ => (false, r3)
        let ed := r4.takeWhile Char.isDigit
        let r5 := r4.dropWhile Char.isDigit
        if ed.isEmpty then none
        else
          let e : Int := (if eneg then -1 else 1) * (digitsToNat ed : Int)
          some (Json.num (base.applyExp e), r5)
      | _ => some (Json.num base, r2)

mutual

/-- Fuel-driven parser for a JSON value (modelling `json.loads`; the
non-standard NaN/Infinity extensions Python also accepts are not
modelled). -/
def parseJsonValue : Nat → List Char → Option (Json × List Char)
  | 0, _ => none
  | fuel + 1, cs =>
    match skipJsonWs cs with
    | '{' :: cs1 =>
      match skipJsonWs cs1 with
      | '}' :: cs2 => some (Json.obj [], cs2)
      | cs2 => parseJsonMembers fuel cs2 []
    | '[' :: cs1 =>
      match skipJsonWs cs1 with
      | ']' :: cs2 => some (Json.arr [], cs2)
      | cs2 => parseJsonElems fuel cs2 []
    | '"' :: cs1 =>
      match parseJsonString (cs1.length + 1) [] cs1 with
      | some (s, rest) => some (Json.str s, rest)
      | none => none
    | 't' :: cs1 => (matchLit ['r', 'u', 'e'] cs1).map (fun r => (Json.bool true, r))
    | 'f' :: cs1 => (matchLit ['a', 'l', 's', 'e'] cs1).map (fun r => (Json.bool false, r))
    | 'n' :: cs1 => (matchLit ['u', 'l', 'l'] cs1).map (fun r => (Json.null, r))
    | cs1 => parseJsonNumber cs1

/-- Members of a JSON object (positioned at a key). -/
def parseJsonMembers : Nat → List Char → List (String × Json) →
    Option (Json × List Char)
  | 0, _, _ => none
  | fuel + 1, cs, acc =>
    match skipJsonWs cs with
    | '"' :: cs1 =>
      match parseJsonString (cs1.length + 1) [] cs1 with
      | some (k, cs2) =>
        match skipJsonWs cs2 with
        | ':' :: cs3 =>
          match parseJsonValue fuel cs3 with
          | some (v, cs4) =>
            match skipJsonWs cs4 with
            | ',' :: cs5 => parseJsonMembers fuel cs5 (acc ++ [(k, v)])
            | '}' :: cs5 => some (Json.obj (acc ++ [(k, v)]), cs5)
            | _ => none
          | none => none
        | _ => none
      | none => none
    | _ => none

/-- Elements of a JSON array (positioned at a value). -/
def parseJsonElems : Nat → List Char → List Json → Option (Json × List Char)
  | 0, _, _ => none
  | fuel + 1, cs, acc =>
    match parseJsonValue fuel cs with
    | some (v, cs1) =>
      match skipJsonWs cs1 with
      | ',' :: cs2 => parseJsonElems fuel cs2 (acc ++ [v])
      | ']' :: cs2 => some (Json.arr (acc ++ [v]), cs2)
      | _ => none
    | none => none

end

/-- `json.loads`: parse a complete JSON document, `none` on the
`JSONDecodeError` the source catches. -/
def json_loads (s : String) : Option Json :=
  match parseJsonValue (2 * s.length + 2) s.data with
  | some (j, rest) => if (skipJsonWs rest).isEmpty then some j else none
  | none => none

/-! ## ISO-8601 timestamps -/

/-- Parse exactly `n` decimal digits. -/
def parseFixedDigits : Nat → Nat → List Char → Option (Nat × List Char)
  | 0, acc, cs => some (acc, cs)
  | n + 1, acc, cs =>
    match cs with
    | c :: cs' =>
      if c.isDigit then parseFixedDigits n (acc * 10 + (c.toNat - 48)) cs' else none
    | [] => none

/-- Gregorian leap year. -/
def isLeapYear (y : Nat) : Bool := (y % 4 == 0 && y % 100 != 0) || y % 400 == 0

/-- Days in a month. -/
def daysInMonth (y m : Nat) : Nat :=
  if m == 2 then (if isLeapYear y then 29 else 28)
  else if m == 4 || m == 6 || m == 9 || m == 11 then 30
  else 31

/-- Days from 1970-01-01 to year/month/day (valid for year ≥ 1, the range
`datetime` accepts), by the standard civil-calendar computation. -/
def daysFromCivil (y m d : Nat) : Int :=
  let y' := if m ≤ 2 then y - 1 else y
  let era := y' / 400
  let yoe := y' - era * 400
  let mp := (m + 9) % 12
  let doy := (153 * mp + 2) / 5 + d - 1
  let doe := yoe * 365 + yoe / 4 - yoe / 100 + doy
  (era : Int) * 146097 + (doe : Int) - 719468

/-- Epoch seconds of an ISO timestamp, modelling
`datetime.fromisoformat(...)` (for the shapes
`YYYY-MM-DD[*HH:MM[:SS[.f+]]][±HH:MM]` the upstream sends) followed by
the source's convert-to-UTC and `.timestamp()`; a string outside this
shape fails, which the caller's `except` turns into `None`. -/
def isoToEpoch (s : String) : Option Dec :=
  match parseFixedDigits 4 0 s.data with
  | none => none
  | some (y, r1) =>
    match r1 with
    | '-' :: r2 =>
      match parseFixedDigits 2 0 r2 with
      | none => none
      | some (mo, r3) =>
        match r3 with
        | '-' :: r4 =>
          match parseFixedDigits 2 0 r4 with
          | none => none
          | some (d, r5) =>
            if y < 1 || y > 9999 || mo < 1 || mo > 12 || d < 1 || d > daysInMonth y mo then
              none
            else
              let dayPart : Int := daysFromCivil y mo d * 86400
              match r5 with
              | [] => some ⟨dayPart, 0⟩
              | sep :: r6 =>
                if !(sep == 'T' || sep == ' ') then none
                else
                  match parseFixedDigits 2 0 r6 with
                  | none => none
                  | some (hh, r7) =>
                    match r7 with
                    | ':' :: r8 =>
                      match parseFixedDigits 2 0 r8 with
                      | none => none
                      | some (mi, r9) =>
                        let (ss, frac, r10) :=
                          match r9 with
                          | ':' :: r9a =>
                            match parseFixedDigits 2 0 r9a with
                            | none => (0, (⟨0, 0⟩ : Dec), ':' :: r9a)
                            | some (sv, r9b) =>
                              match r9b with
                              | '.' :: r9c =>
                                let fd := r9c.takeWhile Char.isDigit
                                let r9d := r9c.dropWhile Char.isDigit
                                (sv, (⟨(digitsToNat fd : Int), fd.length⟩ : Dec), r9d)
                              | _ => (sv, (⟨0, 0⟩ : Dec), r9b)
                          | _ => (0, (⟨0, 0⟩ : Dec), r9)
                        if hh > 23 || mi > 59 || ss > 59 then none
                        else
                          let base : Int := dayPart + hh * 3600 + mi * 60 + ss
                          match r10 with
                          | [] => some (Dec.add ⟨base, 0⟩ frac)
                          | sgn :: r11 =>
                            if !(sgn == '+' || sgn == '-') then none
                            else
                              match parseFixedDigits 2 0 r11 with
                              | none => none
                              | some (oh, r12) =>
                                match r12 with
                                | ':' :: r13 =>
                                  match parseFixedDigits 2 0 r13 with
                                  | some (om, []) =>
                                    let off : Int := (oh * 3600 + om * 60 : Nat)
                                    let off := if sgn == '-' then -off else off
                                    some (Dec.add ⟨base - off, 0⟩ frac)
                                  | _ => none
                                | _ => none
                    | _ => none
        | _ => none
    | _ => none

/-! ## Quota-reset timestamp extraction -/

/-- The trailing-`Z` normalisation at lines 1121-1122:
`if ts.endswith("Z"): ts = ts.replace("Z", "+00:00")`. -/
def normalizeZ (s : String) : String :=
  match s.data.getLast? with
  | some 'Z' =>
    String.mk (s.data.foldr
      (fun c acc =>
        if c == 'Z' then '+' :: '0' :: '0' :: ':' :: '0' :: '0' :: acc else c :: acc)
      [])
  | _ => s

/-- The `for detail in details` walk of lines 1116-1128.  The whole walk
runs inside one `try/except Exception: return None`, so any type mismatch
(a non-object detail, a non-object metadata, a truthy non-string
timestamp) or an unparsable timestamp aborts the walk with `None`;
a falsy/absent timestamp merely skips to the next detail. -/
def walkQuotaDetails : List Json → Option Dec
  | [] => none
  | d :: ds =>
    match d with
    | Json.obj dfs =>
      match jget dfs "@type" with
      | some (Json.str t) =>
        if t == "type.googleapis.com/google.rpc.ErrorInfo" then
          match (jget dfs "metadata").getD (Json.obj []) with
          | Json.obj mfs =>
            match jget mfs "quotaResetTimeStamp" with
            | some (Json.str ts) =>
              if ts == "" then walkQuotaDetails ds
              else isoToEpoch (normalizeZ ts)
            | some v => if jTruthy v then none else walkQuotaDetails ds
            | none => walkQuotaDetails ds
          | _ => none
        else walkQuotaDetails ds
      | some _ => walkQuotaDetails ds
      | none => walkQuotaDetails ds
    | _ => none

/-- `CredentialPool.parse_quota_reset_timestamp` (lines 1079-1133):
extract the epoch seconds of `error.details[*].metadata.quotaResetTimeStamp`
for the first ErrorInfo detail that carries one. -/
def parse_quota_reset_timestamp (j : Json) : Option Dec :=
  match j with
  | Json.obj fs =>
    match (jget fs "error").getD (Json.obj []) with
    | Json.obj efs =>
      match (jget efs "details").getD (Json.arr []) with
      | Json.arr ds => walkQuotaDetails ds
      | _ => none
    | _ => none
  | _ => none

/-! ## The 429 regex cascade -/

/-- Case-insensitive literal match (pattern given lowercase). -/
def matchLitCI : List Char → List Char → Option (List Char)
  | [], rest => some rest
  | _ :: _, [] => none
  | p :: ps, c :: cs => if charLower c == p then matchLitCI ps cs else none

/-- Run a position matcher at every position, leftmost match first
(`re.search`). -/
def scanFor {α : Type} (f : List Char → Option α) : List Char → Option α
  | [] => f []
  | c :: cs =>
    match f (c :: cs) with
    | some a => some a
    | none => scanFor f cs

/-- `"retryDelay"\s*:\s*"(\d+)s?"` (line 1208) at one position: the
captured digit group. -/
def matchRetryDelayAt (cs : List Char) : Option Nat :=
  (matchLit ('"' :: "retryDelay".data ++ ['"']) cs).bind fun r1 =>
    match r1.dropWhile isWs with
    | ':' :: r3 =>
      match r3.dropWhile isWs with
      | '"' :: r5 =>
        let ds := r5.takeWhile Char.isDigit
        let r6 := r5.dropWhile Char.isDigit
        if ds.isEmpty then none
        else
          match r6 with
          | 's' :: '"' :: _ => some (digitsToNat ds)
          | '"' :: _ => some (digitsToNat ds)
          | _ => none
      | _ => none
    | _ => none

/-- One optional `([\d.]+<letter>)?` group of the quotaResetDelay regex:
returns the numeric capture (without the letter) and the rest, consuming
nothing when the group does not match. -/
def matchNumGroup (letter : Char) (cs : List Char) : Option (List Char) × List Char :=
  let ds := cs.takeWhile (fun c => c.isDigit || c == '.')
  let rest := cs.dropWhile (fun c => c.isDigit || c == '.')
  if ds.isEmpty then (none, cs)
  else
    match rest with
    | c :: r => if c == letter then (some ds, r) else (none, cs)
    | [] => (none, cs)

/-- `"quotaResetDelay"\s*:\s*"([\d.]+h)?([\d.]+m)?([\d.]+s)?"`
(line 1215) at one position: the three captures. -/
def matchQuotaResetDelayAt (cs : List Char) :
    Option (Option (List Char) × Option (List Char) × Option (List Char)) :=
  (matchLit ('"' :: "quotaResetDelay".data ++ ['"']) cs).bind fun r1 =>
    match r1.dropWhile isWs with
    | ':' :: r3 =>
      match r3.dropWhile isWs with
      | '"' :: r5 =>
        let (gh, r6) := matchNumGroup 'h' r5
        let (gm, r7) := matchNumGroup 'm' r6
        let (gs, r8) := matchNumGroup 's' r7
        match r8 with
        | '"' :: _ => some (gh, gm, gs)
        | _ => none
      | _ => none
    | _ => none

/-- `retry\s+after\s+(\d+)\s*s` with `re.IGNORECASE` (line 1226) at one
position. -/
def matchRetryAfterTextAt (cs : List Char) : Option Nat :=
  (matchLitCI "retry".data cs).bind fun r1 =>
    if (r1.takeWhile isWs).isEmpty then none
    else
      (matchLitCI "after".data (r1.dropWhile isWs)).bind fun r3 =>
        if (r3.takeWhile isWs).isEmpty then none
        else
          let r4 := r3.dropWhile isWs
          let ds := r4.takeWhile Char.isDigit
          if ds.isEmpty then none
          else
            match (r4.dropWhile Char.isDigit).dropWhile isWs with
            | c :: _ => if charLower c == 's' then some (digitsToNat ds) else none
            | [] => none

/-- `(\d+)\s*seconds?` with `re.IGNORECASE` (line 1233) at one position. -/
def matchSecondsAt (cs : List Char) : Option Nat :=
  let ds := cs.takeWhile Char.isDigit
  if ds.isEmpty then none
  else
    (matchLitCI "second".data ((cs.dropWhile Char.isDigit).dropWhile isWs)).map
      fun _ => digitsToNat ds

/-- Python `dict.get` on a header mapping. -/
def headerGet (hs : List (String × String)) (k : String) : Option String :=
  match hs.find? (fun p => p.1 == k) with
  | none => none
  | some p => some p.2

/-- Steps 4 and 5 of the cascade (lines 1226-1240): free-text
"retry after N s..." then "N second(s)", else 0. -/
def parse429Tail (error_text : String) : Int :=
  match scanFor matchRetryAfterTextAt error_text.data with
  | some n => (n : Int)
  | none =>
    match scanFor matchSecondsAt error_text.data with
    | some n => (n : Int)
    | none => 0

/-- `CredentialPool.parse_429_retry_after` (lines 1164-1240).  `now` is
`time.time()` (whole seconds).  Step 0 (quotaResetTimeStamp via
`json.loads`) and step 1 (Retry-After header) swallow their own failures;
step 3's `float()` call on the `[\d.]+` captures is UNGUARDED in the
source, so a malformed capture raises — modelled as `Except.error`. -/
def parse_429_retry_after (error_text : String)
    (headers : Option (List (String × String))) (now : Int) : Except String Int :=
  let step0 : Option Int :=
    match json_loads error_text with
    | none => none
    | some j =>
      match parse_quota_reset_timestamp j with
      | none => none
      | some cooldown_until =>
        if !cooldown_until.truthy then none
        else
          let cd := (cooldown_until.sub ⟨now, 0⟩).pyInt
          if 0 < cd then some cd else none
  match step0 with
  | some cd => .ok cd
  | none =>
    let step1 : Option Int :=
      match headers with
      | none => none
      | some hs =>
        if hs.isEmpty then none
        else
          let ra :=
            match headerGet hs "Retry-After" with
            | some v => if v == "" then headerGet hs "retry-after" else some v
            | none => headerGet hs "retry-after"
          match ra with
          | some v => if v == "" then none else pyIntStr v
          | none => none
    match step1 with
    | some cd => .ok cd
    | none =>
      match scanFor matchRetryDelayAt error_text.data with
      | some n => .ok (n : Int)
      | none =>
        match scanFor matchQuotaResetDelayAt error_text.data with
        | some (gh, gm, gs) =>
          let fh := match gh with | some ds => pyFloatDigitsDot ds | none => some ⟨0, 0⟩
          let fm := match gm with | some ds => pyFloatDigitsDot ds | none => some ⟨0, 0⟩
          let fsec := match gs with | some ds => pyFloatDigitsDot ds | none => some ⟨0, 0⟩
          match fh, fm, fsec with
          | some h, some m, some sec =>
            let cd := ((h.mulNat 3600).add ((m.mulNat 60).add sec)).pyInt
            if 0 < cd then .ok cd
            else .ok (parse429Tail error_text)
          | _, _, _ => .error "ValueError"
        | none => .ok (parse429Tail error_text)

/-- The per-row write of `handle_429_rate_limit` (lines 1273-1302): stamp
the group's last-used field so the fixed-cooldown check expires at the
parsed time, record the error text, bump the failure counter. -/
def rateLimitUpdate (model_group : String) (last_used : Int) (cd_seconds : Int)
    (error_text : String) (c : Credential) : Credential :=
  let c1 :=
    if model_group == "30" then { c with last_used_30 := some last_used }
    else if model_group == "pro" then { c with last_used_pro := some last_used }
    else { c with last_used_flash := some last_used }
  let msg := "429限速 CD " ++ toString cd_seconds ++ "秒 (" ++ model_group ++ ") - "
    ++ (if error_text == "" then "" else error_text.take 300)
  { c1 with last_error := msg, failed_requests := c1.failed_requests + 1 }

/-- `CredentialPool.handle_429_rate_limit` (lines 1242-1307).  `now` is
`datetime.utcnow()` in epoch seconds (also passed to the parser as
`time.time()`).  A parser exception propagates before any database
write; otherwise the parsed (or default 60) cooldown is applied to the
credential's group and returned. -/
def handle_429_rate_limit (s : Settings) (pool : List Credential) (now : Int)
    (credential_id : Int) (model : String) (error_text : String)
    (headers : Option (List (String × String))) :
    Except String (Int × List Credential) :=
  match parse_429_retry_after error_text headers now with
  | .error e => .error e
  | .ok cd0 =>
    let cd_seconds := if cd0 ≤ 0 then 60 else cd0
    let model_group := get_model_group (some model)
    let config_cd := get_cd_seconds s model_group
    let last_used := if 0 < config_cd then now + cd_seconds - config_cd else now
    .ok (cd_seconds, pool.map fun c =>
      if c.id == credential_id then
        rateLimitUpdate model_group last_used cd_seconds error_text c
      else c)

/-! ## C4: the cooldown parser -/

instance {e a : Type} [DecidableEq e] [DecidableEq a] : DecidableEq (Except e a) :=
  fun x y =>
    match x, y with
    | .ok u, .ok v =>
      if h : u = v then isTrue (by rw [h])
      else isFalse (by intro hh; cases hh; exact h rfl)
    | .error u, .error v =>
      if h : u = v then isTrue (by rw [h])
      else isFalse (by intro hh; cases hh; exact h rfl)
    | .ok _, .error _ => isFalse (by intro hh; cases hh)
    | .error _, .ok _ => isFalse (by intro hh; cases hh)

/-- C4: the parser yields the claimed values on the claim's inputs —
`"retryDelay": "60s"` gives 60, `"quotaResetDelay": "1h2m3s"` gives 3723,
a `Retry-After: 60` header gives 60, free text "retry after 45 seconds"
gives 45, and unparseable text falls back to 60 through
`handle_429_rate_limit` — but the "never raises" part of the claim fails:
a malformed quotaResetDelay capture such as "1..2s" reaches the unguarded
`float()` call of step 3 (credential_pool.py lines 1215-1220) and raises
ValueError, which propagates out of `parse_429_retry_after` and
`handle_429_rate_limit`, contradicting the docstring's "returns 0 when
parsing fails". -/
theorem C4_parse_eval :
    parse_429_retry_after "\"retryDelay\": \"60s\"" none 0 = .ok 60
    ∧ parse_429_retry_after "\"quotaResetDelay\": \"1h2m3s\"" none 0 = .ok 3723
    ∧ parse_429_retry_after "" (some [("Retry-After", "60")]) 0 = .ok 60
    ∧ parse_429_retry_after "retry after 45 seconds" none 0 = .ok 45
    ∧ handle_429_rate_limit sC2 [] 0 1 "gemini-2.0-flash" "unparseable text" none
        = .ok (60, [])
    ∧ parse_429_retry_after "\"quotaResetDelay\": \"1..2s\"" none 0
        = .error "ValueError" :=
  ⟨rfl, rfl, rfl, rfl, rfl, rfl⟩

/-! ## C5: 429 cooldown effectiveness -/

theorem rateLimitUpdate_id (mg : String) (lu cd : Int) (et : String) (c : Credential) :
    (rateLimitUpdate mg lu cd et c).id = c.id := by
  unfold rateLimitUpdate
  by_cases h30 : (mg == "30") = true
  · simp [h30]
  · by_cases hpro : (mg == "pro") = true
    · simp [h30, hpro]
    · simp [h30, hpro]

theorem rateLimitUpdate_is_active (mg : String) (lu cd : Int) (et : String)
    (c : Credential) : (rateLimitUpdate mg lu cd et c).is_active = c.is_active := by
  unfold rateLimitUpdate
  by_cases h30 : (mg == "30") = true
  · simp [h30]
  · by_cases hpro : (mg == "pro") = true
    · simp [h30, hpro]
    · simp [h30, hpro]

theorem groupLastUsed_rateLimitUpdate (mg : String) (lu cd : Int) (et : String)
    (c : Credential) : groupLastUsed (rateLimitUpdate mg lu cd et c) mg = some lu := by
  unfold rateLimitUpdate groupLastUsed
  by_cases h30 : (mg == "30") = true
  · simp [h30]
  · by_cases hpro : (mg == "pro") = true
    · simp [h30, hpro]
    · simp [h30, hpro]

/-- A fresh credential hit by a 429 while the configured flash cooldown is
zero. -/
def credI : Credential := { credBase with id := 11 }

/-- C5 counterexample: with the flash group's configured cooldown set to
zero, `handle_429_rate_limit` reports a 60-second cooldown, yet
immediately afterwards `is_credential_in_cd` is false — the 429 is
effectively ignored by the availability check (the source comments on
lines 1288-1291 acknowledge this: the CD mechanism does not take effect,
the timestamp is only recorded). -/
theorem C5_counterexample :
    handle_429_rate_limit sC2 [credI] 1000 11 "gemini-2.0-flash" "unparseable" none
      = .ok (60, [rateLimitUpdate "flash" 1000 60 "unparseable" credI])
    ∧ is_credential_in_cd sC2 1000
        (rateLimitUpdate "flash" 1000 60 "unparseable" credI) "flash" = false
    ∧ ((1000 : Int) < 1000 + 60) :=
  ⟨rfl, rfl, by omega⟩

/-- C5 (amended): when the statically configured cooldown of the model's
feature group is positive, a credential that `handle_429_rate_limit`
reports as cooled down for N seconds is in cooldown for that group exactly
until now + N; when the configured cooldown is zero the recorded
timestamp has no effect on the availability check. -/
theorem C5_cooldown_until (s : Settings) (pool : List Credential) (now : Int)
    (cid : Int) (model : String) (et : String)
    (hd : Option (List (String × String))) (N : Int) (pool' : List Credential)
    (hcfg : 0 < get_cd_seconds s (get_model_group (some model)))
    (hrun : handle_429_rate_limit s pool now cid model et hd = .ok (N, pool')) :
    0 < N ∧ ∀ c' ∈ pool', c'.id = cid →
      ∀ t : Int, is_credential_in_cd s t c' (get_model_group (some model)) =
        decide (t < now + N) := by
  rcases hp : parse_429_retry_after et hd now with e | cd0
  · rw [handle_429_rate_limit, hp] at hrun
    cases hrun
  · rw [handle_429_rate_limit, hp] at hrun
    simp only [Except.ok.injEq, Prod.mk.injEq] at hrun
    obtain ⟨hN, hpool⟩ := hrun
    have hNpos : 0 < N := by
      rw [← hN]
      split <;> omega
    refine ⟨hNpos, ?_⟩
    intro c' hc' hcid t
    rw [← hpool] at hc'
    rw [hN, if_pos hcfg] at hc'
    rcases List.mem_map.mp hc' with ⟨c0, hc0, hc0e⟩
    by_cases hid : (c0.id == cid) = true
    · rw [if_pos hid] at hc0e
      rw [← hc0e]
      unfold is_credential_in_cd
      rw [if_neg (by omega : ¬ get_cd_seconds s (get_model_group (some model)) ≤ 0)]
      rw [groupLastUsed_rateLimitUpdate]
      show decide (t < now + N - get_cd_seconds s (get_model_group (some model))
        + get_cd_seconds s (get_model_group (some model))) = decide (t < now + N)
      exact decide_eq_decide.mpr (by omega)
    · rw [if_neg hid] at hc0e
      rw [← hc0e] at hcid
      exact absurd hcid (by simpa [beq_iff_eq] using hid)

/-- A fresh credential for the C5 witness (configured flash cooldown 60). -/
def credJ : Credential := { credBase with id := 12 }

/-- Witness for the amended C5: after a 429 with unparseable text at time
1000 under a 60-second configured flash cooldown, the credential is in
cooldown at 1030 (inside the window) by exactly the `t < 1060` rule. -/
theorem C5_cooldown_until_witness :
    is_credential_in_cd sC3 1030 (rateLimitUpdate "flash" 1000 60 "x" credJ)
      (get_model_group (some "gemini-2.0-flash")) = decide ((1030 : Int) < 1000 + 60) :=
  (C5_cooldown_until sC3 [credJ] 1000 12 "gemini-2.0-flash" "x" none 60
    [rateLimitUpdate "flash" 1000 60 "x" credJ] (by decide) rfl).2
    (rateLimitUpdate "flash" 1000 60 "x" credJ) (List.mem_singleton_self _) rfl 1030

/-! ## Tenant provisioner: onboarding polls -/

/-- The result and resource usage of the polling loop of
`_try_onboard_user`: the returned value (or the propagated exception for a
non-200 response / malformed body), the number of onboarding POSTs
issued, and the total seconds slept. -/
structure OnboardRun where
  result : Except String (Option Json)
  requests : Nat
  sleepSeconds : Nat

/-- `data.get("done")` truthiness (line 197); a non-object body raises. -/
def pollDone (body : Json) : Except String Bool :=
  match body with
  | Json.obj fs => .ok (jTruthy ((jget fs "done").getD Json.null))
  | _ => .error "AttributeError"

/-- The project-id extraction of lines 200-216: `data.get("response", {})`
then `.get("cloudaicompanionProject", {})`; a dict yields its `"id"`
member, a string yields itself, anything else yields `None`; a truthy
value is returned, a falsy one becomes `None`; a non-dict `response`
field raises. -/
def onboardExtract (body : Json) : Except String (Option Json) :=
  match body with
  | Json.obj fs =>
    match (jget fs "response").getD (Json.obj []) with
    | Json.obj rfs =>
      let project_id : Option Json :=
        match (jget rfs "cloudaicompanionProject").getD (Json.obj []) with
        | Json.obj pfs => jget pfs "id"
        | Json.str str => some (Json.str str)
        | _ => none
      match project_id with
      | some v => if jTruthy v then .ok (some v) else .ok none
      | none => .ok none
    | _ => .error "AttributeError"
  | _ => .error "AttributeError"

/-- The `while attempt < max_attempts` polling loop of `_try_onboard_user`
(lines 174-226), recursing on the remaining attempts.  `responses i` is
the (status code, parsed JSON body) of the i-th onboarding POST; a
non-200 status raises (line 223); an unfinished 200 body sleeps 2 seconds
and retries; a done body extracts the project id; exhausting the attempts
returns `None` (line 226). -/
def onboardLoop (responses : Nat → Int × Json) (attempt : Nat) :
    Nat → OnboardRun
  | 0 => ⟨.ok none, 0, 0⟩
  | remaining + 1 =>
    if (responses attempt).1 == 200 then
      match pollDone (responses attempt).2 with
      | .error e => ⟨.error e, 1, 0⟩
      | .ok true => ⟨onboardExtract (responses attempt).2, 1, 0⟩
      | .ok false =>
        let rest := onboardLoop responses (attempt + 1) remaining
        ⟨rest.result, rest.requests + 1, rest.sleepSeconds + 2⟩
    else ⟨.error ("HTTP " ++ toString (responses attempt).1), 1, 0⟩

/-- `_try_onboard_user` (lines 140-226): give up immediately when the tier
lookup produced nothing (lines 153-156), otherwise poll up to
`max_attempts = 5` times.  The `_get_onboard_tier` HTTP call is
abstracted as the `tier` parameter. -/
def try_onboard_user (tier : Option String) (responses : Nat → Int × Json) :
    OnboardRun :=
  if !(optStrTruthy tier) then ⟨.ok none, 0, 0⟩
  else onboardLoop responses 0 5

theorem onboardLoop_requests_le (responses : Nat → Int × Json) :
    ∀ r a, (onboardLoop responses a r).requests ≤ r := by
  intro r
  induction r with
  | zero => intro a; exact Nat.le_refl 0
  | succ n ih =>
    intro a
    simp only [onboardLoop]
    by_cases hs : ((responses a).1 == 200) = true
    · rw [if_pos hs]
      rcases hd : pollDone (responses a).2 with e | b
      · simp
      · rcases b with _ | _
        · have := ih (a + 1)
          simp only []
          omega
        · simp
    · rw [if_neg hs]
      simp

theorem onboardLoop_all_notdone (responses : Nat → Int × Json) :
    ∀ r a,
      (∀ i, a ≤ i → i < a + r →
        (responses i).1 = 200 ∧ pollDone (responses i).2 = .ok false) →
      onboardLoop responses a r = ⟨.ok none, r, 2 * r⟩ := by
  intro r
  induction r with
  | zero => intro a _; rfl
  | succ n ih =>
    intro a h
    have h0 := h a (Nat.le_refl a) (by omega)
    simp only [onboardLoop]
    rw [if_pos (by rw [h0.1]; rfl), h0.2]
    have hrec := ih (a + 1) (fun i h1 h2 => h i (by omega) (by omega))
    rw [hrec]
    show OnboardRun.mk (.ok none) (n + 1) (2 * n + 2) = OnboardRun.mk (.ok none) (n + 1) (2 * (n + 1))
    congr 1

theorem onboardLoop_done_at (responses : Nat → Int × Json) :
    ∀ j r a v, j < r →
      (∀ i, a ≤ i → i < a + j →
        (responses i).1 = 200 ∧ pollDone (responses i).2 = .ok false) →
      (responses (a + j)).1 = 200 → pollDone (responses (a + j)).2 = .ok true →
      onboardExtract (responses (a + j)).2 = .ok (some v) →
      onboardLoop responses a r = ⟨.ok (some v), j + 1, 2 * j⟩ := by
  intro j
  induction j with
  | zero =>
    intro r a v hjr _ hs hdone hex
    rcases r with _ | m
    · omega
    · simp only [onboardLoop]
      rw [if_pos (by rw [Nat.add_zero] at hs; rw [hs]; rfl)]
      rw [Nat.add_zero] at hdone hex
      rw [hdone, hex]
  | succ k ih =>
    intro r a v hjr hprev hs hdone hex
    rcases r with _ | m
    · omega
    · have h0 := hprev a (Nat.le_refl a) (by omega)
      simp only [onboardLoop]
      rw [if_pos (by rw [h0.1]; rfl), h0.2]
      have hrec := ih m (a + 1) v (by omega)
        (fun i h1 h2 => hprev i (by omega) (by omega))
        (by rw [show a + 1 + k = a + (k + 1) from by omega]; exact hs)
        (by rw [show a + 1 + k = a + (k + 1) from by omega]; exact hdone)
        (by rw [show a + 1 + k = a + (k + 1) from by omega]; exact hex)
      rw [hrec]
      show OnboardRun.mk (.ok (some v)) (k + 1 + 1) (2 * k + 2)
        = OnboardRun.mk (.ok (some v)) (k + 1 + 1) (2 * (k + 1))
      congr 1

/-- C9: the onboarding fallback issues at most 5 polling requests; when
every poll returns an unfinished 200 it gives up with `None` after
exactly 5 requests, sleeping 2 seconds per unfinished poll; and it
returns the extracted project id as soon as a poll reports done, having
issued only the polls up to that point with a 2-second sleep after each
unfinished one. -/
theorem C9_onboard_polling (tier : Option String) (responses : Nat → Int × Json) :
    (try_onboard_user tier responses).requests ≤ 5
    ∧ (optStrTruthy tier = true →
        (∀ i, i < 5 → (responses i).1 = 200 ∧ pollDone (responses i).2 = .ok false) →
        try_onboard_user tier responses = ⟨.ok none, 5, 10⟩)
    ∧ ∀ j v, j < 5 → optStrTruthy tier = true →
        (∀ i, i < j → (responses i).1 = 200 ∧ pollDone (responses i).2 = .ok false) →
        (responses j).1 = 200 → pollDone (responses j).2 = .ok true →
        onboardExtract (responses j).2 = .ok (some v) →
        try_onboard_user tier responses = ⟨.ok (some v), j + 1, 2 * j⟩ := by
  refine ⟨?_, ?_, ?_⟩
  · unfold try_onboard_user
    split
    · exact Nat.zero_le 5
    · exact onboardLoop_requests_le responses 5 0
  · intro ht hall
    unfold try_onboard_user
    rw [if_neg (by rw [ht]; simp)]
    have := onboardLoop_all_notdone responses 5 0 (fun i h1 h2 => hall i (by omega))
    rw [this]
  · intro j v hj ht hprev hs hdone hex
    unfold try_onboard_user
    rw [if_neg (by rw [ht]; simp)]
    exact onboardLoop_done_at responses j 5 0 v hj
      (fun i h1 h2 => hprev i (by omega))
      (by rw [Nat.zero_add]; exact hs)
      (by rw [Nat.zero_add]; exact hdone)
      (by rw [Nat.zero_add]; exact hex)

/-- Concrete poll responses for the C9 witness: the first poll is an
unfinished 200, the second completes with a project id. -/
def respW : Nat → Int × Json := fun i =>
  if i == 0 then (200, Json.obj [("done", Json.bool false)])
  else
    (200, Json.obj
      [("done", Json.bool true),
       ("response", Json.obj
         [("cloudaicompanionProject", Json.obj [("id", Json.str "proj-1")])])])

/-- Witness for C9: two polls, one 2-second sleep, the id extracted. -/
theorem C9_onboard_polling_witness :
    try_onboard_user (some "FREE") respW = ⟨.ok (some (Json.str "proj-1")), 2, 2⟩ :=
  (C9_onboard_polling (some "FREE") respW).2.2 1 (Json.str "proj-1") (by omega)
    (by decide)
    (fun i hi => by
      have hi0 : i = 0 := by omega
      subst hi0
      exact ⟨rfl, rfl⟩)
    rfl rfl rfl

/-! ## C8: is_active is never re-enabled by the scheduler -/

/-- `CredentialPool.disable_credential` (lines 1029-1037). -/
def disable_credential (pool : List Credential) (credential_id : Int) :
    List Credential :=
  pool.map fun c => if c.id == credential_id then { c with is_active := false } else c

/-- `CredentialPool.set_model_group_cooldown` (lines 562-607) on the
decoded cooldown map: overwrite the group's entry. -/
def set_model_group_cooldown (pool : List Credential) (credential_id : Int)
    (model_group : String) (reset_time : Int) : List Credential :=
  pool.map fun c =>
    if c.id == credential_id then
      { c with model_cooldowns :=
          (c.model_cooldowns.filter fun p => !(p.1 == model_group))
            ++ [(model_group, reset_time)] }
    else c

/-- The scheduler's write paths over the shared credential/user state
(spec section 5 lists them: selection, token refresh, cooldown setting,
429 handling, failure handling, disabling, error marking). -/
inductive SchedOp where
  | select (now : Int) (user_id : Option Int) (model : Option String)
      (exclude_ids : List Int) (mode : String)
  | refreshToken (credential_id : Int) (now : Int) (refreshResult : Option String)
  | setCooldown (credential_id : Int) (model_group : String) (reset_time : Int)
  | rateLimit (now : Int) (credential_id : Int) (model : String)
      (error_text : String) (headers : Option (List (String × String)))
  | failure (credential_id : Int) (error : String)
  | disable (credential_id : Int)
  | markError (credential_id : Int) (error : String)

/-- Apply one scheduler write path to the shared state (a raised parser
exception in the 429 path aborts before any write). -/
def applySchedOp (s : Settings) (op : SchedOp)
    (st : List Credential × List User) : List Credential × List User :=
  match op with
  | .select now uid model excl mode =>
    ((get_available_credential s st.1 now uid model excl mode).2, st.2)
  | .refreshToken cid now rr =>
    (st.1.map fun c => if c.id == cid then (get_access_token c now rr).2 else c, st.2)
  | .setCooldown cid g t => (set_model_group_cooldown st.1 cid g t, st.2)
  | .rateLimit now cid model et hd =>
    match handle_429_rate_limit s st.1 now cid model et hd with
    | .ok (_, pool') => (pool', st.2)
    | .error _ => st
  | .failure cid e => handle_credential_failure s st.1 st.2 cid e
  | .disable cid => (disable_credential st.1 cid, st.2)
  | .markError cid e => (mark_credential_error st.1 cid e, st.2)

theorem get_access_token_is_active (c : Credential) (now : Int)
    (rr : Option String) : (get_access_token c now rr).2.is_active = c.is_active := by
  unfold get_access_token
  split
  · split
    · rcases rr with _ | t
      · rcases cachedToken c with _ | t <;> rfl
      · rfl
    · rfl
  · rfl

theorem get_access_token_id (c : Credential) (now : Int)
    (rr : Option String) : (get_access_token c now rr).2.id = c.id := by
  unfold get_access_token
  split
  · split
    · rcases rr with _ | t
      · rcases cachedToken c with _ | t <;> rfl
      · rfl
    · rfl
  · rfl

theorem selectionUpdate_no_activate (now : Int) (g : String) (c : Credential) :
    (selectionUpdate now g c).is_active = true → c.is_active = true := by
  rw [selectionUpdate_is_active]
  exact id

theorem map_no_activate (f : Credential → Credential) (pool : List Credential)
    (hid : ∀ c, (f c).id = c.id)
    (hact : ∀ c, (f c).is_active = true → c.is_active = true) :
    ∀ c' ∈ pool.map f, c'.is_active = true →
      ∃ c ∈ pool, c.id = c'.id ∧ c.is_active = true := by
  intro c' hc' ha
  rcases List.mem_map.mp hc' with ⟨c, hc, rfl⟩
  exact ⟨c, hc, (hid c).symm, hact c ha⟩

theorem no_activate_refl (pool : List Credential) :
    ∀ c' ∈ pool, c'.is_active = true →
      ∃ c ∈ pool, c.id = c'.id ∧ c.is_active = true :=
  fun c' h ha => ⟨c', h, rfl, ha⟩

theorem no_activate_comp (p1 p2 p3 : List Credential)
    (h23 : ∀ c' ∈ p3, c'.is_active = true →
      ∃ c ∈ p2, c.id = c'.id ∧ c.is_active = true)
    (h12 : ∀ c' ∈ p2, c'.is_active = true →
      ∃ c ∈ p1, c.id = c'.id ∧ c.is_active = true) :
    ∀ c' ∈ p3, c'.is_active = true →
      ∃ c ∈ p1, c.id = c'.id ∧ c.is_active = true := by
  intro c' h3 ha
  rcases h23 c' h3 ha with ⟨c2, hm2, hid2, ha2⟩
  rcases h12 c2 hm2 ha2 with ⟨c1, hm1, hid1, ha1⟩
  exact ⟨c1, hm1, hid1.trans hid2, ha1⟩

theorem ite_update_no_activate (pool : List Credential) (cid : Int)
    (g : Credential → Credential)
    (hid : ∀ c, (g c).id = c.id)
    (hact : ∀ c, (g c).is_active = true → c.is_active = true) :
    ∀ c' ∈ pool.map (fun c => if c.id == cid then g c else c),
      c'.is_active = true → ∃ c ∈ pool, c.id = c'.id ∧ c.is_active = true := by
  apply map_no_activate
  · intro c
    by_cases h : (c.id == cid) = true
    · rw [if_pos h]; exact hid c
    · rw [if_neg h]
  · intro c
    by_cases h : (c.id == cid) = true
    · rw [if_pos h]; exact hact c
    · rw [if_neg h]; exact id

/-- C8: no scheduler write path ever turns `is_active` from false to
true — every active credential after an operation corresponds to a
credential with the same id that was already active before it. -/
theorem C8_no_reactivation (s : Settings) (op : SchedOp)
    (pool : List Credential) (users : List User) :
    ∀ c' ∈ (applySchedOp s op (pool, users)).1, c'.is_active = true →
      ∃ c ∈ pool, c.id = c'.id ∧ c.is_active = true := by
  cases op with
  | select now uid model excl mode =>
    simp only [applySchedOp]
    rcases hch : chooseFrom s now model mode
        (selectionCandidates s pool uid model excl mode) with _ | chosen
    · simp only [get_available_credential, hch]
      exact no_activate_refl pool
    · simp only [get_available_credential, hch]
      exact ite_update_no_activate pool chosen.id _
        (fun c => selectionUpdate_id now (selectionModelGroup model) c)
        (fun c => selectionUpdate_no_activate now (selectionModelGroup model) c)
  | refreshToken cid now rr =>
    simp only [applySchedOp]
    exact ite_update_no_activate pool cid _
      (fun c => get_access_token_id c now rr)
      (fun c => by rw [get_access_token_is_active]; exact id)
  | setCooldown cid g t =>
    simp only [applySchedOp, set_model_group_cooldown]
    exact ite_update_no_activate pool cid _ (fun c => rfl) (fun c => id)
  | rateLimit now cid model et hd =>
    simp only [applySchedOp]
    rcases hp : parse_429_retry_after et hd now with e | cd0
    · rw [handle_429_rate_limit, hp]
      exact no_activate_refl pool
    · rw [handle_429_rate_limit, hp]
      exact ite_update_no_activate pool cid _
        (fun c => rateLimitUpdate_id _ _ _ _ c)
        (fun c => by rw [rateLimitUpdate_is_active]; exact id)
  | failure cid e =>
    simp only [applySchedOp]
    have hmark : ∀ c' ∈ mark_credential_error pool cid e, c'.is_active = true →
        ∃ c ∈ pool, c.id = c'.id ∧ c.is_active = true := by
      unfold mark_credential_error
      exact ite_update_no_activate pool cid _ (fun c => rfl) (fun c => id)
    simp only [handle_credential_failure]
    by_cases hauth : authFailureText e = true
    · rw [if_pos hauth]
      rcases hf : (mark_credential_error pool cid e).find? (fun c => c.id == cid)
        with _ | cred
      · rw [hf]
        exact hmark
      · rw [hf]
        by_cases hact : cred.is_active = true
        · simp only [hact, eq_self_iff_true, if_true]
          exact no_activate_comp pool (mark_credential_error pool cid e) _
            (ite_update_no_activate _ cid _ (fun c => rfl) (fun c h => by cases h))
            hmark
        · have haf : cred.is_active = false := by
            rcases h : cred.is_active
            · rfl
            · exact absurd h hact
          simp only [haf, Bool.false_eq_true, if_false]
          exact hmark
    · rw [if_neg hauth]
      exact hmark
  | disable cid =>
    simp only [applySchedOp, disable_credential]
    exact ite_update_no_activate pool cid _ (fun c => rfl) (fun c h => by cases h)
  | markError cid e =>
    simp only [applySchedOp, mark_credential_error]
    exact ite_update_no_activate pool cid _ (fun c => rfl) (fun c => id)

/-- Witness for C8: marking an error on an active credential keeps its
provenance. -/
theorem C8_no_reactivation_witness :
    ∃ c ∈ [credBase], c.id = (markErrorUpdate "e" credBase).id
      ∧ c.is_active = true :=
  C8_no_reactivation sC1 (SchedOp.markError 1 "e") [credBase] []
    (markErrorUpdate "e" credBase) (List.mem_singleton_self _) rfl
